import Mathlib

/-!
Shallow embedding of `index_workspace.py` from vanallenlab/firecloud_helper.

Python strings are modelled as `List Char`; machine floats are modelled as
exact rationals (`ℚ`); Python cell values (pandas/JSON scalars) are modelled
by the inductive `PyVal` covering strings, `None` and integers.  The remote
HTTP collaborators and the TSV/zip parsers are modelled as oracles packed in
a `FirecloudEnv` record: each oracle returns exactly the data the source
extracts from the corresponding response, while status codes and raw bodies
are carried by `Response` values, so the control flow of `index` can be
reproduced faithfully.
-/

namespace Firecloud

/-- A Python string, modelled as its list of characters. -/
abbrev Str := List Char

/-- A Python scalar value as it appears in a parsed data-model column or
annotation row: a string, `None`, or an integer. -/
inductive PyVal where
| pstr (s : Str)
| pnone
| pint (n : Int)
deriving DecidableEq, Repr

/-- Structural recursion on a fuel bound for the decimal digits of a natural
number (the fuel is only a termination device: `n + 1` steps always
suffice because the argument shrinks by a factor of ten each step). -/
def py_str_digits_aux : Nat → Nat → Str
| 0, _ => []
| fuel + 1, n =>
  if n < 10 then [Nat.digitChar n]
  else py_str_digits_aux fuel (n / 10) ++ [Nat.digitChar (n % 10)]

/-- Decimal digit string of a natural number, most significant digit first;
this is `str(n)` for a non-negative Python int. -/
def py_str_digits (n : Nat) : Str := py_str_digits_aux (n + 1) n

/-- Python `str(...)` on a `PyVal`: the identity on strings, `"None"` for
`None`, and the signed decimal representation for integers. -/
def py_str : PyVal → Str
| PyVal.pstr s => s
| PyVal.pnone => "None".toList
| PyVal.pint n => if n < 0 then '-' :: py_str_digits n.natAbs else py_str_digits n.natAbs

/-- `calculate_usage` (index_workspace.py lines 12-16): converts a byte count
into gigabytes, terabytes and an estimated monthly cost.  Python float
arithmetic is modelled exactly over `ℚ`. -/
def calculate_usage (usage_bytes : ℚ) : ℚ × ℚ × ℚ :=
  let usage_gigabytes := usage_bytes / 10 ^ 9
  let usage_terabytes := usage_bytes / 10 ^ 12
  let monthly_cost := usage_terabytes * 26
  (usage_gigabytes, usage_terabytes, monthly_cost)

/-- Python `s.split(c)` for a single-character separator: always returns a
non-empty list of (possibly empty) chunks. -/
def splitOnChar (c : Char) : Str → List Str
| [] => [[]]
| x :: xs =>
  match splitOnChar c xs with
  | [] => [[]]
  | h :: t => if x = c then [] :: h :: t else (x :: h) :: t

/-- Python `c.join(parts)` for a single-character separator. -/
def joinSep (c : Char) : List Str → Str
| [] => []
| [p] => p
| p :: q :: rest => p ++ c :: joinSep c (q :: rest)

/-- The parent-directory computation applied to each handle inside
`list_paths` (line 86): `'/'.join(handle.split('/')[:-1])`. -/
def dirname (handle : Str) : Str :=
  joinSep '/' ((splitOnChar '/' handle).dropLast)

/-- `list_paths` (lines 85-87): strips the final `/`-separated segment of
every handle and de-duplicates.  Python's `list(set(...))` (arbitrary
iteration order, exact membership) is modelled as `List.dedup`. -/
def list_paths (list_of_paths : List Str) : List Str :=
  (list_of_paths.map dirname).dedup

/-- `subset_attributes_in_bucket` (lines 125-128): keeps the elements of the
concatenated attribute lists whose `str(...)` form starts with
`'gs://' + bucket_name` (note: no trailing slash is appended). -/
def subset_attributes_in_bucket (bucket_name : Str) (entities_list workspace_list : List PyVal) : List PyVal :=
  let bucket_id := "gs://".toList ++ bucket_name
  let combined_list := entities_list ++ workspace_list
  combined_list.filter (fun blob => bucket_id.isPrefixOf (py_str blob))

/-- `subset_blobs_for_attribute_paths` (lines 131-135): for each given path,
appends every blob of `all_blobs` that contains it as a substring (Python's
`path in handle`, modelled as list containment `<:+:`). -/
def subset_blobs_for_attribute_paths (paths : List Str) (all_blobs : List Str) : List Str :=
  paths.flatMap (fun path => all_blobs.filter (fun handle => decide (path <:+: handle)))

/-- The candidate-for-deletion computation of `index` (lines 181-186).
Python's `list(set(a) - set(b))` is modelled as `a.dedup.filter (· ∉ b)`:
exact membership, duplicates collapsed, iteration order abstracted to first
occurrence.  In the default branch the subtracted set holds the original
`PyVal` elements, so a blob is removed exactly when the string value
`PyVal.pstr b` is among them.  In the keep-related branch `list_paths`
receives the matched attribute values; every value that passed the
`gs://` test is a string, on which `py_str` is the identity. -/
def blobs_to_remove (keeping_related_files : Bool) (all_blobs_in_bucket : List Str) (attributes_in_bucket : List PyVal) : List Str :=
  if keeping_related_files then
    let attribute_paths := list_paths (attributes_in_bucket.map py_str)
    let attribute_blobs := subset_blobs_for_attribute_paths attribute_paths all_blobs_in_bucket
    all_blobs_in_bucket.dedup.filter (fun b => decide (b ∉ attribute_blobs))
  else
    all_blobs_in_bucket.dedup.filter (fun b => decide (PyVal.pstr b ∉ attributes_in_bucket))

/-- An HTTP response: status code plus raw body. -/
structure Response where
  status_code : Nat
  content : Str
deriving DecidableEq, Repr

/-- The record built by `check_request` (lines 19-29): message, the response
itself, its status code and its raw body. -/
structure CheckResult where
  message : Str
  response : Response
  response_status_code : Nat
  response_content : Str
deriving DecidableEq, Repr

/-- `check_request` (lines 19-29): a status code outside {200, 201, 204}
yields a record carrying the failure message; otherwise the message is
`"success!"`. -/
def check_request (response : Response) (failure_message : Str) : CheckResult :=
  if ¬ (response.status_code ∈ [200, 201, 204]) then
    { message := failure_message
      response := response
      response_status_code := response.status_code
      response_content := response.content }
  else
    { message := "success!".toList
      response := response
      response_status_code := response.status_code
      response_content := response.content }

/-- A response whose status code is one of the conventional success codes. -/
def resp_ok (r : Response) : Prop := r.status_code ∈ [200, 201, 204]

instance (r : Response) : Decidable (resp_ok r) := by
  unfold resp_ok; infer_instance

/-- Oracle environment for one run of `index`: the responses returned by the
remote collaborators, the values the source extracts from their JSON/TSV/zip
bodies, and the bucket listing produced by `glob_bucket`.  Parsing
(`format_request_to_tsv` + `list_datamodel_columns`, zip extraction, JSON
field access) is abstracted into total oracle functions of the raw content;
`unzip_membership` returns `none` when `zipfile.ZipFile` would raise on a
non-zip body, which crashes the Python run. -/
structure FirecloudEnv where
  workspace_response : Response
  json_bucketName : Str
  usage_response : Response
  json_usageInBytes : ℚ
  entity_types_response : Response
  json_entity_type_keys : List Str
  entity_response : Str → Response
  unzip_membership : Str → Str → Option Str
  parse_tsv_columns : Str → List PyVal
  workspace_attrs_response : Response
  workspace_attrs_row : Str → List PyVal
  bucket_blobs : List Str

/-- `list_entity_types` (lines 97-103): on a non-success status the failure
record is printed (`print_json`) and `None` is returned, modelled as
`Except.error`; otherwise the JSON keys. -/
def list_entity_types (env : FirecloudEnv) : Except CheckResult (List Str) :=
  let r := env.entity_types_response
  let check_r := check_request r "Failed to get entity types from workspace".toList
  if check_r.message ≠ "success!".toList then Except.error check_r
  else Except.ok env.json_entity_type_keys

/-- `list_workspace_attributes` (lines 106-116): on a non-success status the
failure record is printed and `None` is returned; otherwise the first row of
the parsed TSV (or `[]` when the table has no data rows, folded into the
`workspace_attrs_row` oracle). -/
def list_workspace_attributes (env : FirecloudEnv) : Except CheckResult (List PyVal) :=
  let r := env.workspace_attrs_response
  let check_r := check_request r "Failed to get workspace annotations".toList
  if check_r.message ≠ "success!".toList then Except.error check_r
  else Except.ok (env.workspace_attrs_row r.content)

/-- Body of the entity-type loop of `index` (lines 167-175) for one entity
type.  Grouping types (`sample_set`, `pair_set`, `participant_set`) go
through `get_entity_type_set_datamodel`, which unzips the response body
(crash, i.e. `none`, on a non-zip body) and reads
`<entity_type>_membership.tsv`; leaf types parse the response body directly.
Neither branch checks the response's status code. -/
def entity_values_for (env : FirecloudEnv) (entity_type : Str) : Option (List PyVal) :=
  if entity_type = "sample_set".toList ∨ entity_type = "pair_set".toList ∨ entity_type = "participant_set".toList then
    match env.unzip_membership (env.entity_response entity_type).content (entity_type ++ "_membership.tsv".toList) with
    | some entity_tsv => some (env.parse_tsv_columns entity_tsv)
    | none => none
  else
    some (env.parse_tsv_columns (env.entity_response entity_type).content)

/-- The entity-type loop of `index` (lines 166-175): flattens every entity
type's column values into one running list, in entity-type order;
`none` when the unzip of a grouping type raises. -/
def datamodel_attributes_loop (env : FirecloudEnv) : List Str → Option (List PyVal)
| [] => some []
| et :: rest =>
  match entity_values_for env et with
  | none => none
  | some vs =>
    match datamodel_attributes_loop env rest with
    | none => none
    | some vss => some (vs ++ vss)

/-- Outcome of one run of `index`: early return after printing a failure
record (`aborted`), an uncaught `TypeError` raised after a failure record was
printed by a helper that returned `None` (`crashed_after_diag`), an uncaught
exception with no diagnostic (`crashed`), or a written report file
(`wrote`).  Only `wrote` writes the output file. -/
inductive IndexOutcome where
| aborted (diag : CheckResult)
| crashed_after_diag (diag : CheckResult)
| crashed
| wrote (filename : Str) (blobs : List Str)
deriving DecidableEq, Repr

/-- `index` (lines 138-193).  Console prints are not modelled except for the
printed failure records, which are carried by the outcome.  Note that the
per-entity-type fetches inside the loop are never status-checked by the
source. -/
def index (namespace_ name : Str) (keeping_related_files : Bool) (env : FirecloudEnv) : IndexOutcome :=
  let check_ws := check_request env.workspace_response "Failed to get workspace".toList
  if check_ws.message ≠ "success!".toList then IndexOutcome.aborted check_ws
  else
    let bucket_name := env.json_bucketName
    let check_usage := check_request env.usage_response "Failed to get workspace bucket usage".toList
    if check_usage.message ≠ "success!".toList then IndexOutcome.aborted check_usage
    else
      let _usage := calculate_usage env.json_usageInBytes
      match list_entity_types env with
      | Except.error d => IndexOutcome.crashed_after_diag d
      | Except.ok entity_types =>
        match datamodel_attributes_loop env entity_types with
        | none => IndexOutcome.crashed
        | some datamodel_attributes =>
          match list_workspace_attributes env with
          | Except.error d => IndexOutcome.crashed_after_diag d
          | Except.ok workspace_attributes =>
            let attributes_in_bucket := subset_attributes_in_bucket bucket_name datamodel_attributes workspace_attributes
            let all_blobs_in_bucket := env.bucket_blobs
            let to_remove := blobs_to_remove keeping_related_files all_blobs_in_bucket attributes_in_bucket
            IndexOutcome.wrote (namespace_ ++ '.' :: name ++ ".files_to_remove.txt".toList) to_remove

/-! ### Helper lemmas -/

theorem splitOnChar_ne_nil (c : Char) (s : Str) : splitOnChar c s ≠ [] := by
  cases s with
  | nil => simp [splitOnChar]
  | cons x xs =>
    unfold splitOnChar
    cases h : splitOnChar c xs with
    | nil => simp
    | cons hd tl => by_cases hx : x = c <;> simp [hx]

theorem joinSep_cons_cons (c : Char) (p q : Str) (rest : List Str) :
    joinSep c (p :: q :: rest) = p ++ c :: joinSep c (q :: rest) := rfl

theorem splitOnChar_cons_eq {c x : Char} {xs : Str} {hd : Str} {tl : List Str}
    (h : splitOnChar c xs = hd :: tl) :
    splitOnChar c (x :: xs) = if x = c then [] :: hd :: tl else (x :: hd) :: tl := by
  unfold splitOnChar
  rw [h]

/-- The parent directory computed by `dirname` is always a (possibly empty)
leading segment of the original handle. -/
theorem dirname_isPrefix (s : Str) : dirname s <+: s := by
  unfold dirname
  induction s with
  | nil => simp [splitOnChar, joinSep]
  | cons x xs ih =>
    cases h : splitOnChar '/' xs with
    | nil => exact absurd h (splitOnChar_ne_nil '/' xs)
    | cons hd tl =>
      rw [h] at ih
      rw [splitOnChar_cons_eq h]
      by_cases hx : x = '/'
      · rw [if_pos hx]
        subst hx
        cases tl with
        | nil => simp [joinSep]
        | cons t1 ts =>
          rw [List.dropLast_cons₂, List.dropLast_cons₂]
          rw [List.dropLast_cons₂] at ih
          revert ih
          cases (t1 :: ts).dropLast with
          | nil =>
            intro ih
            simp only [joinSep] at ih
            simp only [joinSep, List.nil_append, List.cons_prefix_cons]
            exact ⟨trivial, ih⟩
          | cons d ds =>
            intro ih
            rw [joinSep_cons_cons]
            simp only [List.nil_append, List.cons_prefix_cons]
            exact ⟨trivial, ih⟩
      · rw [if_neg hx]
        cases tl with
        | nil => simp [joinSep]
        | cons t1 ts =>
          rw [List.dropLast_cons₂]
          rw [List.dropLast_cons₂] at ih
          revert ih
          cases (t1 :: ts).dropLast with
          | nil =>
            intro ih
            simp only [joinSep] at ih
            simp only [joinSep, List.cons_prefix_cons]
            exact ⟨trivial, ih⟩
          | cons d ds =>
            intro ih
            rw [joinSep_cons_cons] at ih ⊢
            simp only [List.cons_append, List.cons_prefix_cons]
            exact ⟨trivial, ih⟩

/-- Membership characterisation of `subset_blobs_for_attribute_paths`. -/
theorem mem_subset_blobs {paths all_blobs : List Str} {handle : Str} :
    handle ∈ subset_blobs_for_attribute_paths paths all_blobs ↔
      ∃ p ∈ paths, handle ∈ all_blobs ∧ p <:+: handle := by
  unfold subset_blobs_for_attribute_paths
  simp [List.mem_flatMap, List.mem_filter]

theorem digitChar_le {m : Nat} (h : m < 10) : (Nat.digitChar m).toNat ≤ 57 := by
  interval_cases m <;> decide

theorem py_str_digits_aux_le (fuel : Nat) :
    ∀ n, ∀ c ∈ py_str_digits_aux fuel n, c.toNat ≤ 57 := by
  induction fuel with
  | zero => intro n c hc; simp [py_str_digits_aux] at hc
  | succ fuel ih =>
    intro n c hc
    rw [py_str_digits_aux] at hc
    split at hc
    · next h =>
      rw [List.mem_singleton] at hc
      subst hc
      exact digitChar_le h
    · next h =>
      rw [List.mem_append] at hc
      rcases hc with hc | hc
      · exact ih (n / 10) c hc
      · rw [List.mem_singleton] at hc
        subst hc
        exact digitChar_le (Nat.mod_lt _ (by omega))

theorem py_str_digits_le (n : Nat) : ∀ c ∈ py_str_digits n, c.toNat ≤ 57 :=
  py_str_digits_aux_le (n + 1) n

/-- Only actual string values can pass the `gs://` test of
`subset_attributes_in_bucket`: the string forms of `None` and of integers
never start with `'g'`. -/
theorem py_str_gs_isString {B : Str} {v : PyVal}
    (h : ("gs://".toList ++ B).isPrefixOf (py_str v) = true) : ∃ s, v = PyVal.pstr s := by
  cases v with
  | pstr s => exact ⟨s, rfl⟩
  | pnone =>
    exfalso
    rw [ List.isPrefixOf_iff_prefix] at h
    rcases h with ⟨t, ht⟩
    have hgs : ("gs://".toList : Str) = ['g', 's', ':', '/', '/'] := rfl
    rw [hgs] at ht
    simp [py_str] at ht
  | pint n =>
    exfalso
    rw [ List.isPrefixOf_iff_prefix] at h
    rcases h with ⟨t, ht⟩
    have hgs : ("gs://".toList : Str) = ['g', 's', ':', '/', '/'] := rfl
    rw [hgs] at ht
    simp only [List.cons_append, List.append_assoc] at ht
    rw [show py_str (PyVal.pint n) =
        if n < 0 then '-' :: py_str_digits n.natAbs else py_str_digits n.natAbs from rfl] at ht
    split at ht
    · exact absurd (List.head_eq_of_cons_eq ht) (by decide)
    · have hg : 'g' ∈ py_str_digits n.natAbs := by
        rw [← ht]; exact List.mem_cons_self _ _
      have := py_str_digits_le n.natAbs 'g' hg
      exact absurd this (by decide)

theorem check_request_of_ok {r : Response} (m : Str) (h : resp_ok r) :
    check_request r m =
      { message := "success!".toList
        response := r
        response_status_code := r.status_code
        response_content := r.content } := by
  unfold check_request
  unfold resp_ok at h
  rw [if_neg (not_not_intro h)]

theorem check_request_of_bad {r : Response} (m : Str) (h : ¬ resp_ok r) :
    check_request r m =
      { message := m
        response := r
        response_status_code := r.status_code
        response_content := r.content } := by
  unfold check_request
  unfold resp_ok at h
  rw [if_pos h]

/-! ### Claims -/

/-- C6: for every non-negative input `b`, `calculate_usage b` is the tuple
`(b / 10^9, b / 10^12, (b / 10^12) * 26)` with no rounding; in particular
`calculate_usage 0 = (0, 0, 0)` and `calculate_usage (10^12) = (1000, 1, 26)`,
and each component is monotone in the input. -/
theorem C6_calculate_usage (a b : ℚ) (ha : 0 ≤ a) (hab : a ≤ b) :
    calculate_usage a = (a / 10 ^ 9, a / 10 ^ 12, a / 10 ^ 12 * 26) ∧
    calculate_usage 0 = (0, 0, 0) ∧
    calculate_usage (10 ^ 12) = (1000, 1, 26) ∧
    (calculate_usage a).1 ≤ (calculate_usage b).1 ∧
    (calculate_usage a).2.1 ≤ (calculate_usage b).2.1 ∧
    (calculate_usage a).2.2 ≤ (calculate_usage b).2.2 := by
  refine ⟨rfl, by norm_num [calculate_usage], by norm_num [calculate_usage], ?_, ?_, ?_⟩ <;>
    simp only [calculate_usage] <;> gcongr

theorem C6_calculate_usage_witness :
    (0 : ℚ) ≤ 3 ∧ (3 : ℚ) ≤ 5 ∧
    (calculate_usage 3 = (3 / 10 ^ 9, 3 / 10 ^ 12, 3 / 10 ^ 12 * 26) ∧
     calculate_usage 0 = (0, 0, 0) ∧
     calculate_usage (10 ^ 12) = (1000, 1, 26) ∧
     (calculate_usage 3).1 ≤ (calculate_usage 5).1 ∧
     (calculate_usage 3).2.1 ≤ (calculate_usage 5).2.1 ∧
     (calculate_usage 3).2.2 ≤ (calculate_usage 5).2.2) :=
  ⟨by norm_num, by norm_num, C6_calculate_usage 3 5 (by norm_num) (by norm_num)⟩

/-- C2 (counterexample): with bucket id `b`, the value `gs://bb/f` does not
start with `gs://b/`, yet `subset_attributes_in_bucket` returns it, because
the source tests the prefix `gs://b` with no trailing slash appended. -/
theorem C2_counterexample :
    subset_attributes_in_bucket "b".toList [PyVal.pstr "gs://bb/f".toList] [] =
      [PyVal.pstr "gs://bb/f".toList] ∧
    ¬ ("gs://b/".toList <+: py_str (PyVal.pstr "gs://bb/f".toList)) := by
  exact ⟨by decide, by decide⟩

/-- C2 (amended): `subset_attributes_in_bucket B entities workspace` returns
exactly those elements of the concatenated list whose string form starts with
`gs://B` (bucket id with NO trailing slash appended); no element lacking that
prefix is ever returned. -/
theorem C2_subset_attributes_gs (B : Str) (entities_list workspace_list : List PyVal) :
    (∀ v ∈ subset_attributes_in_bucket B entities_list workspace_list,
      ("gs://".toList ++ B) <+: py_str v) ∧
    (∀ v ∈ entities_list ++ workspace_list,
      ("gs://".toList ++ B) <+: py_str v →
        v ∈ subset_attributes_in_bucket B entities_list workspace_list) := by
  constructor
  · intro v hv
    simp only [subset_attributes_in_bucket, List.mem_filter,
      List.isPrefixOf_iff_prefix ] at hv
    exact hv.2
  · intro v hv hp
    simp only [subset_attributes_in_bucket, List.mem_filter,
      List.isPrefixOf_iff_prefix ]
    exact ⟨hv, hp⟩

theorem C2_subset_attributes_gs_witness :
    PyVal.pstr "gs://b/x".toList ∈
      subset_attributes_in_bucket "b".toList [PyVal.pstr "gs://b/x".toList] [] ∧
    ("gs://".toList ++ "b".toList) <+: py_str (PyVal.pstr "gs://b/x".toList) :=
  ⟨(C2_subset_attributes_gs "b".toList [PyVal.pstr "gs://b/x".toList] []).2
      (PyVal.pstr "gs://b/x".toList) (by decide) (by decide),
   (C2_subset_attributes_gs "b".toList [PyVal.pstr "gs://b/x".toList] []).1
      (PyVal.pstr "gs://b/x".toList) (by decide)⟩

/-- C9: the result of `subset_attributes_in_bucket` is a sub-sequence of the
concatenation of its inputs (entities first, then workspace values), so it
preserves concatenation order; it retains duplicates (each retained value
keeps its full multiplicity); and its length is at most the combined input
length. -/
theorem C9_subset_attributes_order (B : Str) (entities_list workspace_list : List PyVal) :
    List.Sublist (subset_attributes_in_bucket B entities_list workspace_list)
      (entities_list ++ workspace_list) ∧
    (subset_attributes_in_bucket B entities_list workspace_list).length ≤
      entities_list.length + workspace_list.length ∧
    ∀ v ∈ subset_attributes_in_bucket B entities_list workspace_list,
      (subset_attributes_in_bucket B entities_list workspace_list).count v =
        (entities_list ++ workspace_list).count v := by
  refine ⟨List.filter_sublist _, ?_, ?_⟩
  · calc (subset_attributes_in_bucket B entities_list workspace_list).length
        ≤ (entities_list ++ workspace_list).length :=
          (List.filter_sublist _).length_le
      _ = entities_list.length + workspace_list.length := List.length_append _ _
  · intro v hv
    simp only [subset_attributes_in_bucket, List.mem_filter] at hv
    exact List.count_filter hv.2

theorem C9_subset_attributes_order_witness :
    PyVal.pstr "gs://b/f".toList ∈
      subset_attributes_in_bucket "b".toList
        [PyVal.pstr "gs://b/f".toList, PyVal.pstr "gs://b/f".toList] [] ∧
    (subset_attributes_in_bucket "b".toList
        [PyVal.pstr "gs://b/f".toList, PyVal.pstr "gs://b/f".toList] []).count
      (PyVal.pstr "gs://b/f".toList) =
      ([PyVal.pstr "gs://b/f".toList, PyVal.pstr "gs://b/f".toList] ++
        ([] : List PyVal)).count (PyVal.pstr "gs://b/f".toList) :=
  ⟨by decide,
   (C9_subset_attributes_order "b".toList
      [PyVal.pstr "gs://b/f".toList, PyVal.pstr "gs://b/f".toList] []).2.2
      (PyVal.pstr "gs://b/f".toList) (by decide)⟩

/-- C8: `subset_attributes_in_bucket` is total on non-string and `None`
elements (it coerces every element to its string form before the prefix
test), and such elements always fail the test and are excluded: `None` and
integers never appear in the result, and every returned value is a string. -/
theorem C8_subset_attributes_nonstrings (B : Str) (entities_list workspace_list : List PyVal) (n : Int) :
    PyVal.pnone ∉ subset_attributes_in_bucket B entities_list workspace_list ∧
    PyVal.pint n ∉ subset_attributes_in_bucket B entities_list workspace_list ∧
    ∀ v ∈ subset_attributes_in_bucket B entities_list workspace_list,
      ∃ s, v = PyVal.pstr s := by
  have key : ∀ v ∈ subset_attributes_in_bucket B entities_list workspace_list,
      ∃ s, v = PyVal.pstr s := by
    intro v hv
    simp only [subset_attributes_in_bucket, List.mem_filter] at hv
    exact py_str_gs_isString hv.2
  refine ⟨?_, ?_, key⟩
  · intro h
    rcases key _ h with ⟨s, hs⟩
    exact PyVal.noConfusion hs
  · intro h
    rcases key _ h with ⟨s, hs⟩
    exact PyVal.noConfusion hs

theorem C8_subset_attributes_nonstrings_witness :
    PyVal.pnone ∉ subset_attributes_in_bucket "b".toList
      [PyVal.pnone, PyVal.pint 7, PyVal.pstr "gs://b/x".toList] [] ∧
    PyVal.pint 7 ∉ subset_attributes_in_bucket "b".toList
      [PyVal.pnone, PyVal.pint 7, PyVal.pstr "gs://b/x".toList] [] ∧
    ∃ s, PyVal.pstr "gs://b/x".toList = PyVal.pstr s :=
  ⟨(C8_subset_attributes_nonstrings "b".toList
      [PyVal.pnone, PyVal.pint 7, PyVal.pstr "gs://b/x".toList] [] 7).1,
   (C8_subset_attributes_nonstrings "b".toList
      [PyVal.pnone, PyVal.pint 7, PyVal.pstr "gs://b/x".toList] [] 7).2.1,
   (C8_subset_attributes_nonstrings "b".toList
      [PyVal.pnone, PyVal.pint 7, PyVal.pstr "gs://b/x".toList] [] 7).2.2
      (PyVal.pstr "gs://b/x".toList) (by decide)⟩

/-- C5: `subset_blobs_for_attribute_paths` returns exactly the bucket paths
that contain at least one of the given parent-directory strings anywhere as a
substring (not merely as a leading segment): a bucket path is in the result
iff some given parent-directory string occurs in it. -/
theorem C5_subset_blobs_membership (paths all_blobs : List Str) :
    (∀ handle ∈ subset_blobs_for_attribute_paths paths all_blobs,
      handle ∈ all_blobs) ∧
    (∀ handle ∈ all_blobs,
      (handle ∈ subset_blobs_for_attribute_paths paths all_blobs ↔
        ∃ p ∈ paths, p <:+: handle)) := by
  constructor
  · intro handle hh
    rcases mem_subset_blobs.mp hh with ⟨p, _, hb, _⟩
    exact hb
  · intro handle hh
    rw [mem_subset_blobs]
    constructor
    · rintro ⟨p, hp, _, hinf⟩
      exact ⟨p, hp, hinf⟩
    · rintro ⟨p, hp, hinf⟩
      exact ⟨p, hp, hh, hinf⟩

theorem C5_subset_blobs_membership_witness :
    "gs://b/x/y.txt".toList ∈
      subset_blobs_for_attribute_paths ["gs://b/x".toList] ["gs://b/x/y.txt".toList] :=
  ((C5_subset_blobs_membership ["gs://b/x".toList] ["gs://b/x/y.txt".toList]).2
      "gs://b/x/y.txt".toList (by decide)).mpr
    ⟨"gs://b/x".toList, by decide, by decide⟩

/-- C3: in both modes the candidate-for-deletion set is a subset of the full
bucket listing, and in default (non-keep-related) mode it is disjoint from
`attributes_in_bucket`. -/
theorem C3_candidates_subset_disjoint (krf : Bool) (all_blobs : List Str) (attrs : List PyVal) :
    (∀ b ∈ blobs_to_remove krf all_blobs attrs, b ∈ all_blobs) ∧
    (∀ b ∈ blobs_to_remove false all_blobs attrs, PyVal.pstr b ∉ attrs) := by
  constructor
  · intro b hb
    unfold blobs_to_remove at hb
    split at hb <;>
      exact List.mem_dedup.mp (List.mem_of_mem_filter hb)
  · intro b hb
    simp only [blobs_to_remove, Bool.false_eq_true, if_false, List.mem_filter,
      decide_eq_true_eq] at hb
    exact hb.2

theorem C3_candidates_subset_disjoint_witness :
    "gs://b/c.txt".toList ∈
      blobs_to_remove false ["gs://b/a.txt".toList, "gs://b/c.txt".toList]
        [PyVal.pstr "gs://b/a.txt".toList] ∧
    "gs://b/c.txt".toList ∈ ["gs://b/a.txt".toList, "gs://b/c.txt".toList] ∧
    PyVal.pstr "gs://b/c.txt".toList ∉ [PyVal.pstr "gs://b/a.txt".toList] :=
  ⟨by decide,
   (C3_candidates_subset_disjoint false
      ["gs://b/a.txt".toList, "gs://b/c.txt".toList]
      [PyVal.pstr "gs://b/a.txt".toList]).1 "gs://b/c.txt".toList (by decide),
   (C3_candidates_subset_disjoint false
      ["gs://b/a.txt".toList, "gs://b/c.txt".toList]
      [PyVal.pstr "gs://b/a.txt".toList]).2 "gs://b/c.txt".toList (by decide)⟩

/-- C10: in both modes the final candidate-for-deletion list contains no
duplicate entries, even when the bucket listing or the matched attribute
values contain repetitions. -/
theorem C10_candidates_nodup (krf : Bool) (all_blobs : List Str) (attrs : List PyVal) :
    (blobs_to_remove krf all_blobs attrs).Nodup := by
  unfold blobs_to_remove
  split <;> exact List.Nodup.filter _ (List.nodup_dedup _)

/-- C7: `list_paths` strips the final slash-delimited segment from each path
and returns the distinct resulting parent directories; in particular
`list_paths ["gs://b/x/y.txt"] = ["gs://b/x"]` and the parent of the
root-level path `gs://b/y.txt` is `gs://b`. -/
theorem C7_list_paths (l : List Str) :
    list_paths ["gs://b/x/y.txt".toList] = ["gs://b/x".toList] ∧
    list_paths ["gs://b/y.txt".toList] = ["gs://b".toList] ∧
    (list_paths l).Nodup ∧
    ∀ p, p ∈ list_paths l ↔ ∃ handle ∈ l, p = dirname handle := by
  refine ⟨by decide, by decide, List.nodup_dedup _, ?_⟩
  intro p
  simp only [list_paths, List.mem_dedup, List.mem_map]
  constructor
  · rintro ⟨h, hh, rfl⟩
    exact ⟨h, hh, rfl⟩
  · rintro ⟨h, hh, rfl⟩
    exact ⟨h, hh, rfl⟩

/-- C4: for the same bucket listing and the same `attributes_in_bucket`, the
keep-related-mode candidate set is a subset of the default-mode candidate
set, and never contains a path absent from the bucket listing. -/
theorem C4_keep_related_shrinks (all_blobs : List Str) (attrs : List PyVal) :
    ∀ b ∈ blobs_to_remove true all_blobs attrs,
      b ∈ blobs_to_remove false all_blobs attrs ∧ b ∈ all_blobs := by
  intro b hb
  simp only [blobs_to_remove, if_true, List.mem_filter, decide_eq_true_eq] at hb
  refine ⟨?_, List.mem_dedup.mp hb.1⟩
  simp only [blobs_to_remove, Bool.false_eq_true, if_false, List.mem_filter,
    decide_eq_true_eq]
  refine ⟨hb.1, ?_⟩
  intro hmem
  apply hb.2
  rw [mem_subset_blobs]
  refine ⟨dirname b, ?_, List.mem_dedup.mp hb.1, (dirname_isPrefix b).isInfix⟩
  simp only [list_paths, List.mem_dedup, List.mem_map]
  exact ⟨b, ⟨PyVal.pstr b, hmem, rfl⟩, rfl⟩

theorem C4_keep_related_shrinks_witness :
    "gs://b/other/c.txt".toList ∈
      blobs_to_remove true
        ["gs://b/x/a.txt".toList, "gs://b/x/b.txt".toList, "gs://b/other/c.txt".toList]
        [PyVal.pstr "gs://b/x/a.txt".toList] ∧
    "gs://b/other/c.txt".toList ∈
      blobs_to_remove false
        ["gs://b/x/a.txt".toList, "gs://b/x/b.txt".toList, "gs://b/other/c.txt".toList]
        [PyVal.pstr "gs://b/x/a.txt".toList] ∧
    "gs://b/other/c.txt".toList ∈
      ["gs://b/x/a.txt".toList, "gs://b/x/b.txt".toList, "gs://b/other/c.txt".toList] :=
  ⟨by decide,
   (C4_keep_related_shrinks
      ["gs://b/x/a.txt".toList, "gs://b/x/b.txt".toList, "gs://b/other/c.txt".toList]
      [PyVal.pstr "gs://b/x/a.txt".toList] "gs://b/other/c.txt".toList (by decide)).1,
   (C4_keep_related_shrinks
      ["gs://b/x/a.txt".toList, "gs://b/x/b.txt".toList, "gs://b/other/c.txt".toList]
      [PyVal.pstr "gs://b/x/a.txt".toList] "gs://b/other/c.txt".toList (by decide)).2⟩

/-- A fully successful oracle environment used as the base for the concrete
failure scenarios below: every remote fetch returns status 200, there are no
entity types, the annotation row is empty, and the bucket holds two files of
which one is referenced by the data model. -/
def envOkBase : FirecloudEnv :=
  { workspace_response := { status_code := 200, content := "ws".toList }
    json_bucketName := "b".toList
    usage_response := { status_code := 200, content := "usage".toList }
    json_usageInBytes := 0
    entity_types_response := { status_code := 200, content := "types".toList }
    json_entity_type_keys := []
    entity_response := fun _ => { status_code := 200, content := "tsv".toList }
    unzip_membership := fun _ _ => none
    parse_tsv_columns := fun _ => [PyVal.pstr "gs://b/x/a.txt".toList]
    workspace_attrs_response := { status_code := 200, content := "attrs".toList }
    workspace_attrs_row := fun _ => []
    bucket_blobs := ["gs://b/x/a.txt".toList, "gs://b/x/b.txt".toList] }

/-- `envOkBase` with the workspace-metadata fetch failing with status 403. -/
def envWs403 : FirecloudEnv :=
  { envOkBase with workspace_response := { status_code := 403, content := "denied".toList } }

/-- `envOkBase` with the bucket-usage fetch failing with status 500. -/
def envUsage500 : FirecloudEnv :=
  { envOkBase with usage_response := { status_code := 500, content := "boom".toList } }

/-- `envOkBase` with the entity-type listing fetch failing with status 500. -/
def envTypes500 : FirecloudEnv :=
  { envOkBase with entity_types_response := { status_code := 500, content := "boom".toList } }

/-- `envOkBase` with the workspace-annotations fetch failing with status 500. -/
def envAttrs500 : FirecloudEnv :=
  { envOkBase with workspace_attrs_response := { status_code := 500, content := "boom".toList } }

/-- `envOkBase` with one leaf entity type whose table fetch fails with
status 500; every status-checked fetch succeeds. -/
def envEntity500 : FirecloudEnv :=
  { envOkBase with
      json_entity_type_keys := ["tab".toList]
      entity_response := fun _ => { status_code := 500, content := "oops".toList } }

/-- C1 (counterexample): the claim covers every remote fetch of steps 1-5,
but the per-entity-type table fetches of step 4 are never status-checked by
the source.  In `envEntity500` the fetch for entity type `tab` returns
status 500, yet the run neither terminates nor prints a diagnostic: the
error body is parsed as table data and the report file is written. -/
theorem C1_counterexample :
    ¬ resp_ok (envEntity500.entity_response "tab".toList) ∧
    "tab".toList ∈ envEntity500.json_entity_type_keys ∧
    index "n".toList "w".toList false envEntity500 =
      IndexOutcome.wrote "n.w.files_to_remove.txt".toList ["gs://b/x/b.txt".toList] := by
  exact ⟨by decide, by decide, by decide⟩

/-- C1 (amended): for the four status-checked fetches — workspace metadata,
bucket usage, entity-type listing and workspace annotations — a response
status outside {200, 201, 204} terminates the run without writing the report
file, printing a record carrying the failure message, the failing response,
its status code and its body (for the entity-type listing and the
annotations the helper prints the record, returns `None`, and the run then
dies of an uncaught `TypeError`).  Entity-type table fetches of step 4 are
not status-checked.  In particular a 403 on the metadata fetch yields no
output file and a diagnostic carrying status code 403. -/
theorem C1_checked_fetch_failures (env : FirecloudEnv) (ns nm : Str) (krf : Bool) :
    (¬ resp_ok env.workspace_response →
      index ns nm krf env = IndexOutcome.aborted
        { message := "Failed to get workspace".toList
          response := env.workspace_response
          response_status_code := env.workspace_response.status_code
          response_content := env.workspace_response.content }) ∧
    (resp_ok env.workspace_response → ¬ resp_ok env.usage_response →
      index ns nm krf env = IndexOutcome.aborted
        { message := "Failed to get workspace bucket usage".toList
          response := env.usage_response
          response_status_code := env.usage_response.status_code
          response_content := env.usage_response.content }) ∧
    (resp_ok env.workspace_response → resp_ok env.usage_response →
      ¬ resp_ok env.entity_types_response →
      index ns nm krf env = IndexOutcome.crashed_after_diag
        { message := "Failed to get entity types from workspace".toList
          response := env.entity_types_response
          response_status_code := env.entity_types_response.status_code
          response_content := env.entity_types_response.content }) ∧
    (resp_ok env.workspace_response → resp_ok env.usage_response →
      resp_ok env.entity_types_response →
      (datamodel_attributes_loop env env.json_entity_type_keys).isSome = true →
      ¬ resp_ok env.workspace_attrs_response →
      index ns nm krf env = IndexOutcome.crashed_after_diag
        { message := "Failed to get workspace annotations".toList
          response := env.workspace_attrs_response
          response_status_code := env.workspace_attrs_response.status_code
          response_content := env.workspace_attrs_response.content }) := by
  refine ⟨?_, ?_, ?_, ?_⟩
  · intro h1
    simp only [index]
    rw [check_request_of_bad _ h1]
    rw [if_pos (by decide : ("Failed to get workspace".toList ≠ "success!".toList))]
  · intro h1 h2
    simp only [index]
    rw [check_request_of_ok _ h1, check_request_of_bad _ h2]
    rw [if_neg (by simp), if_pos (by decide :
      ("Failed to get workspace bucket usage".toList ≠ "success!".toList))]
  · intro h1 h2 h3
    simp only [index, list_entity_types]
    rw [check_request_of_ok _ h1, check_request_of_ok _ h2, check_request_of_bad _ h3]
    rw [if_neg (by simp), if_neg (by simp), if_pos (by decide :
      ("Failed to get entity types from workspace".toList ≠ "success!".toList))]
  · intro h1 h2 h3 hloop h5
    simp only [index, list_entity_types, list_workspace_attributes]
    rw [check_request_of_ok _ h1, check_request_of_ok _ h2, check_request_of_ok _ h3,
      check_request_of_bad _ h5]
    rw [if_neg (by simp), if_neg (by simp), if_neg (by simp), if_pos (by decide :
      ("Failed to get workspace annotations".toList ≠ "success!".toList))]
    rcases Option.isSome_iff_exists.mp hloop with ⟨vals, hvals⟩
    simp only [hvals]

theorem C1_checked_fetch_failures_witness :
    index "n".toList "w".toList false envWs403 = IndexOutcome.aborted
      { message := "Failed to get workspace".toList
        response := { status_code := 403, content := "denied".toList }
        response_status_code := 403
        response_content := "denied".toList } ∧
    index "n".toList "w".toList false envUsage500 = IndexOutcome.aborted
      { message := "Failed to get workspace bucket usage".toList
        response := { status_code := 500, content := "boom".toList }
        response_status_code := 500
        response_content := "boom".toList } ∧
    index "n".toList "w".toList false envTypes500 = IndexOutcome.crashed_after_diag
      { message := "Failed to get entity types from workspace".toList
        response := { status_code := 500, content := "boom".toList }
        response_status_code := 500
        response_content := "boom".toList } ∧
    index "n".toList "w".toList false envAttrs500 = IndexOutcome.crashed_after_diag
      { message := "Failed to get workspace annotations".toList
        response := { status_code := 500, content := "boom".toList }
        response_status_code := 500
        response_content := "boom".toList } :=
  ⟨(C1_checked_fetch_failures envWs403 "n".toList "w".toList false).1 (by decide),
   (C1_checked_fetch_failures envUsage500 "n".toList "w".toList false).2.1
     (by decide) (by decide),
   (C1_checked_fetch_failures envTypes500 "n".toList "w".toList false).2.2.1
     (by decide) (by decide) (by decide),
   (C1_checked_fetch_failures envAttrs500 "n".toList "w".toList false).2.2.2
     (by decide) (by decide) (by decide) (by decide) (by decide)⟩

end Firecloud
